import Mathlib

/-!
Verification development for the msgcode confirmation-token subsystem and its
acceptance test `scripts/desktop/test-token-reuse.py`.

The subsystem (intent fingerprint, token store, issuer, validator/consumer and
the sensitive-action dispatcher) lives in the Swift binary
`mac/msgcode-desktopctl`, whose sources are not part of this tree; those
components are modelled from the design document.  The Python acceptance test
is embedded directly from its source.
-/

namespace Msgcode

/-- JSON value model: the tagged value type (string/number/bool/null/array/
object) used throughout.  A number literal is represented as a pair
`(mantissa, fracDigits)`, denoting `mantissa * 10 ^ (-fracDigits)`, so that
distinct textual representations of the same number (`1` vs `1.0`) are
distinct until canonicalized. -/
inductive Json where
  | null : Json
  | bool (b : Bool) : Json
  | num (mantissa : Int) (fracDigits : Nat) : Json
  | str (s : String) : Json
  | arr (items : List Json) : Json
  | obj (entries : List (String × Json)) : Json

mutual

/-- Boolean structural equality on JSON values. -/
def Json.beq (u : Json) (w : Json) : Bool :=
  match u, w with
  | .null, .null => true
  | .bool a, .bool b => a == b
  | .num m f, .num n g => m == n && f == g
  | .str s, .str t => s == t
  | .arr as, .arr bs => beqItems as bs
  | .obj ps, .obj qs => beqEntries ps qs
  | _, _ => false

/-- Boolean equality on JSON arrays. -/
def beqItems (as : List Json) (bs : List Json) : Bool :=
  match as, bs with
  | [], [] => true
  | u :: as', w :: bs' => Json.beq u w && beqItems as' bs'
  | _, _ => false

/-- Boolean equality on JSON object entry lists. -/
def beqEntries (ps : List (String × Json)) (qs : List (String × Json)) : Bool :=
  match ps, qs with
  | [], [] => true
  | (k, u) :: ps', (l, w) :: qs' => k == l && Json.beq u w && beqEntries ps' qs'
  | _, _ => false

end

mutual

/-- `Json.beq` decides equality. -/
theorem Json.beq_iff : (u w : Json) → (Json.beq u w = true ↔ u = w)
  | .null, .null => by simp [Json.beq]
  | .null, .bool _ | .null, .num _ _ | .null, .str _ | .null, .arr _ | .null, .obj _ => by
    simp [Json.beq]
  | .bool _, .null | .bool _, .num _ _ | .bool _, .str _ | .bool _, .arr _
  | .bool _, .obj _ => by simp [Json.beq]
  | .num _ _, .null | .num _ _, .bool _ | .num _ _, .str _ | .num _ _, .arr _
  | .num _ _, .obj _ => by simp [Json.beq]
  | .str _, .null | .str _, .bool _ | .str _, .num _ _ | .str _, .arr _
  | .str _, .obj _ => by simp [Json.beq]
  | .arr _, .null | .arr _, .bool _ | .arr _, .num _ _ | .arr _, .str _
  | .arr _, .obj _ => by simp [Json.beq]
  | .obj _, .null | .obj _, .bool _ | .obj _, .num _ _ | .obj _, .str _
  | .obj _, .arr _ => by simp [Json.beq]
  | .bool a, .bool b => by simp [Json.beq]
  | .num m f, .num n g => by simp [Json.beq]
  | .str s, .str t => by simp [Json.beq]
  | .arr as, .arr bs => by simp [Json.beq, beqItems_iff as bs]
  | .obj ps, .obj qs => by simp [Json.beq, beqEntries_iff ps qs]

/-- `beqItems` decides equality of JSON arrays. -/
theorem beqItems_iff : (as bs : List Json) → (beqItems as bs = true ↔ as = bs)
  | [], [] => by simp [beqItems]
  | [], w :: bs' => by simp [beqItems]
  | u :: as', [] => by simp [beqItems]
  | u :: as', w :: bs' => by
    simp [beqItems, Json.beq_iff u w, beqItems_iff as' bs']

/-- `beqEntries` decides equality of JSON object entry lists. -/
theorem beqEntries_iff : (ps qs : List (String × Json)) → (beqEntries ps qs = true ↔ ps = qs)
  | [], [] => by simp [beqEntries]
  | [], q :: qs' => by simp [beqEntries]
  | p :: ps', [] => by simp [beqEntries]
  | (k, u) :: ps', (l, w) :: qs' => by
    simp [beqEntries, Json.beq_iff u w, beqEntries_iff ps' qs', Prod.ext_iff, and_assoc]

end

instance : DecidableEq Json := fun u w =>
  if h : Json.beq u w = true then .isTrue ((Json.beq_iff u w).mp h)
  else .isFalse (fun he => h ((Json.beq_iff u w).mpr he))

/-- First entry with the given key in an association list (keys in the JSON
objects handled here are unique, so first match coincides with the Python
dict lookup). -/
def lookupEntry : List (String × Json) → String → Option Json
  | [], _ => none
  | (k, v) :: rest, key => if k = key then some v else lookupEntry rest key

/-- Entries of a JSON object, `none` when the value is not an object. -/
def Json.asObj : Json → Option (List (String × Json))
  | .obj es => some es
  | _ => none

/-- Python `v[key]` on a parsed JSON value: only defined (`some`) when `v` is
an object that has the key; anything else raises (`KeyError`/`TypeError`),
modelled as `none`. -/
def getIndex (v : Json) (key : String) : Option Json :=
  match v with
  | .obj es => lookupEntry es key
  | _ => none

/-- Python `v.get(key)` on a parsed JSON value: the outer `none` is the
`AttributeError` raised when `v` is not a dict; the inner option is the
possibly-missing key. -/
def dictGet (v : Json) (key : String) : Option (Option Json) :=
  (v.asObj).map (fun es => lookupEntry es key)

/-- Python truthiness of a JSON value: `None`, `False`, `0`, `""`, `[]` and
an empty object are falsy. -/
def Json.truthy : Json → Bool
  | .null => false
  | .bool b => b
  | .num m _ => m != 0
  | .str s => s != ""
  | .arr [] => false
  | .arr (_ :: _) => true
  | .obj [] => false
  | .obj (_ :: _) => true

/-- Python truthiness of a `dict.get` result (`None` for a missing key). -/
def truthyOpt : Option Json → Bool
  | none => false
  | some v => v.truthy

/-- Whether the character list `n` occurs contiguously inside `h`
(Python `n in h` on strings), by checking every suffix. -/
def hasSubList (n : List Char) : List Char → Bool
  | [] => n = []
  | c :: rest => n.isPrefixOf (c :: rest) || hasSubList n rest

/-- Python substring test `n in h`. -/
def hasSub (n h : String) : Bool :=
  hasSubList n.data h.data

/-- Python `in` on a parsed JSON value: key membership for objects, element
membership for arrays, substring for strings; raises (`none`) otherwise. -/
def pyContains (x : String) : Json → Option Bool
  | .obj es => some (decide (x ∈ es.map Prod.fst))
  | .arr items => some (decide (Json.str x ∈ items))
  | .str s => some (hasSub x s)
  | _ => none

/-- Python `str()` of a `dict.get` result, used only for interpolation into
printed messages (container reprs are approximated by the JSON dump
notation). -/
def pyStr : Option Json → String
  | none => "None"
  | some (.str s) => s
  | some (.bool true) => "True"
  | some (.bool false) => "False"
  | some .null => "None"
  | some (.num m 0) => toString m
  | some (.num m f) => toString m ++ "e-" ++ toString f
  | some (.arr _) => "<list>"
  | some (.obj _) => "<dict>"

/-- Modelled from the spec: numeric normalization used by `canonicalize`
(§4.1), stripping trailing zero fraction digits so that `1` and `1.0`
canonicalize identically. -/
def normNum : Int → Nat → Int × Nat
  | m, 0 => (m, 0)
  | m, f + 1 => if m % 10 = 0 then normNum (m / 10) f else (m, f + 1)

/-- Ordering of object entries by key, used by `canonicalize` to sort object
keys. -/
def keyLE (a b : String × Json) : Prop := a.1 ≤ b.1

instance : DecidableRel keyLE := fun a b => inferInstanceAs (Decidable (a.1 ≤ b.1))

instance : IsTotal (String × Json) keyLE := ⟨fun a b => le_total a.1 b.1⟩

instance : IsTrans (String × Json) keyLE := ⟨fun _ _ _ h h' => le_trans h h'⟩

/-- Key-sorted form of an object's entry list. -/
def sortByKey (es : List (String × Json)) : List (String × Json) :=
  es.insertionSort keyLE

mutual

/-- Modelled from the spec: `canonicalize(intent.params)` (§4.1) — recursively
sorts object keys, preserves array order, and normalizes numeric
representation. -/
def canonicalize : Json → Json
  | .null => .null
  | .bool b => .bool b
  | .num m f => let p := normNum m f; .num p.1 p.2
  | .str s => .str s
  | .arr items => .arr (canonList items)
  | .obj es => .obj (sortByKey (canonKVs es))

/-- Canonicalization mapped over array items. -/
def canonList : List Json → List Json
  | [] => []
  | x :: xs => canonicalize x :: canonList xs

/-- Canonicalization mapped over object entry values (keys unchanged). -/
def canonKVs : List (String × Json) → List (String × Json)
  | [] => []
  | (k, v) :: rest => (k, canonicalize v) :: canonKVs rest

end

/-- An Intent: the (method, parameters) pair a confirmation token authorizes
(spec §3). -/
structure Intent where
  method : String
  params : Json
deriving DecidableEq

/-- A fingerprint value: the digest type used to bind a token to an intent. -/
abbrev Fingerprint := String × Json

/-- Modelled from the spec: `fingerprint(intent)` (§4.1) — a deterministic
digest of the canonical form.  The collision-free hash is idealized as the
canonical form itself (method, canonicalized params), which realizes the
spec's invariant `fingerprint(a) = fingerprint(b) ↔ same canonical intent`
exactly. -/
def fingerprint (i : Intent) : Fingerprint :=
  (i.method, canonicalize i.params)

/-- Stored lifecycle state of a token.  `Expired` is a derived, time-dependent
predicate (spec §3), not a stored transition, so the store only ever holds
`Active` or `Used`; see `observedState`. -/
inductive TokenState where
  | Active : TokenState
  | Used : TokenState
deriving DecidableEq

/-- Conceptual (observed) state of a token record at a given time, including
the derived `Expired` state (spec §3 and §4.3 step 2). -/
inductive ObservedState where
  | Active : ObservedState
  | Used : ObservedState
  | Expired : ObservedState
deriving DecidableEq

/-- Modelled from the spec: a Token record (§3) —
`{ id, intentFingerprint, issuedAtMs, ttlMs, state }`, the id being the store
key. -/
structure TokenRecord where
  intentFingerprint : Fingerprint
  issuedAtMs : Nat
  ttlMs : Nat
  state : TokenState
deriving DecidableEq

/-- The session-scoped Token Store: a table from token id to record. -/
def TokenStore := List (String × TokenRecord)

/-- Store lookup by token id. -/
def lookupToken : TokenStore → String → Option TokenRecord
  | [], _ => none
  | (id, rec) :: rest, t => if id = t then some rec else lookupToken rest t

/-- Replace the record stored under an id (no effect when the id is absent). -/
def setToken : TokenStore → String → TokenRecord → TokenStore
  | [], _, _ => []
  | (id, rec) :: rest, t, newRec =>
    if id = t then (id, newRec) :: rest else (id, rec) :: setToken rest t newRec

/-- Observed state of a record at time `now`: `Used` stays `Used`; an
`Active` record past `issuedAtMs + ttlMs` is observed `Expired`. -/
def observedState (rec : TokenRecord) (now : Nat) : ObservedState :=
  match rec.state with
  | .Used => .Used
  | .Active => if now > rec.issuedAtMs + rec.ttlMs then .Expired else .Active

/-- Result of the Token Validator/Consumer. -/
inductive VResult where
  | Allow : VResult
  | Deny (reason : String) : VResult
deriving DecidableEq

/-- Modelled from the spec: `validateAndConsume(presentedTokenId,
actualIntent)` (§4.3) — the four ordered, short-circuiting checks (lookup →
`invalid`, expiry → `expired`, used → `used`, fingerprint → `mismatch`) and
the terminal consume step `Active → Used` on `Allow`.  Returns the result
together with the updated store. -/
def validateAndConsume (store : TokenStore) (now : Nat) (presentedTokenId : String)
    (actualIntent : Intent) : VResult × TokenStore :=
  match lookupToken store presentedTokenId with
  | none => (.Deny "invalid", store)
  | some rec =>
    if now > rec.issuedAtMs + rec.ttlMs then (.Deny "expired", store)
    else if rec.state = .Used then (.Deny "used", store)
    else if fingerprint actualIntent ≠ rec.intentFingerprint then (.Deny "mismatch", store)
    else (.Allow, setToken store presentedTokenId { rec with state := .Used })

/-- Modelled from the spec: `issue(intent, ttlMs)` (§4.2) — mints a token for
the intent with a caller-supplied fresh id, records it `Active` at `now`, and
rejects a non-positive ttl with `InvalidTTL`.  Returns the id and the grown
store. -/
def issue (store : TokenStore) (now : Nat) (intent : Intent) (ttlMs : Nat)
    (freshId : String) : Except String (String × TokenStore) :=
  if ttlMs = 0 then .error "InvalidTTL"
  else .ok (freshId,
    (freshId, { intentFingerprint := fingerprint intent, issuedAtMs := now,
                ttlMs := ttlMs, state := .Active }) :: store)

/-- A sensitive RPC request as seen by the dispatcher: method, parameter
tree, and the optional confirmation token (spec §6). -/
structure Request where
  method : String
  params : Json
  confirm : Option String

/-- Modelled from the spec: the intent of the actual request, recomputed by
the dispatcher at call time (§4.1, §4.4). -/
def intentOf (req : Request) : Intent :=
  { method := req.method, params := req.params }

/-- Outcome of dispatching a sensitive action (spec §4.4 and §6 error
shape). -/
inductive DispatchResult where
  | success (value : Json) : DispatchResult
  | permissionMissing : DispatchResult
  | confirmRequired (reason : String) : DispatchResult
  | actionError (code : String) : DispatchResult
deriving DecidableEq

/-- Top-level error code of a dispatch outcome (spec §6). -/
def errorCodeOf : DispatchResult → Option String
  | .success _ => none
  | .permissionMissing => some "DESKTOP_PERMISSION_MISSING"
  | .confirmRequired _ => some "DESKTOP_CONFIRM_REQUIRED"
  | .actionError c => some c

/-- Modelled from the spec: the Action Dispatcher's sensitive-action gate
(§4.4) — prerequisite permission check first (`DESKTOP_PERMISSION_MISSING`,
bypassing the token machinery), then missing-token check
(`DESKTOP_CONFIRM_REQUIRED`, reason `missing`), then `validateAndConsume`;
on `Allow` the underlying action runs via `exec` and its error, if any, is
surfaced under its own code. -/
def dispatch (permissionGranted : Bool) (exec : String → Json → Except String Json)
    (store : TokenStore) (now : Nat) (req : Request) : DispatchResult × TokenStore :=
  if permissionGranted = false then (.permissionMissing, store)
  else
    match req.confirm with
    | none => (.confirmRequired "missing", store)
    | some tok =>
      match validateAndConsume store now tok (intentOf req) with
      | (.Deny r, s') => (.confirmRequired r, s')
      | (.Allow, s') =>
        match exec req.method req.params with
        | .ok v => (.success v, s')
        | .error code => (.actionError code, s')

/-- JSON string escaping as produced by `json.dumps` (quote, backslash and
the common control characters; `ensure_ascii` escaping of non-ASCII text is
not needed by any string handled here and is left as the identity). -/
def escapeChar (c : Char) : String :=
  if c = '"' then "\\\""
  else if c = '\\' then "\\\\"
  else if c = '\n' then "\\n"
  else if c = '\t' then "\\t"
  else if c = '\r' then "\\r"
  else String.mk [c]

/-- Escape a list of characters for inclusion in a JSON string literal. -/
def escapeList : List Char → String
  | [] => ""
  | c :: rest => escapeChar c ++ escapeList rest

/-- Escape every character of a string for inclusion in a JSON string
literal. -/
def escape (s : String) : String :=
  escapeList s.data

/-- The character for a decimal digit. -/
def digitChar : Nat → Char
  | 0 => '0' | 1 => '1' | 2 => '2' | 3 => '3' | 4 => '4'
  | 5 => '5' | 6 => '6' | 7 => '7' | 8 => '8' | _ => '9'

/-- Fuel-bounded accumulation of the decimal digits of `n` in front of
`acc`; the fuel always suffices since `digitsOf` passes `n` itself. -/
def digitsOfAux : Nat → Nat → List Char → List Char
  | 0, n, acc => digitChar n :: acc
  | fuel + 1, n, acc =>
    if n < 10 then digitChar n :: acc
    else digitsOfAux fuel (n / 10) (digitChar (n % 10) :: acc)

/-- Decimal digits of a natural number, most significant first. -/
def digitsOf (n : Nat) : List Char :=
  digitsOfAux n n []

/-- Decimal rendering of an integer. -/
def intToStr (m : Int) : String :=
  if m < 0 then "-" ++ String.mk (digitsOf m.natAbs) else String.mk (digitsOf m.natAbs)

/-- Decimal rendering of the number `(m, f)` — `m * 10 ^ (-f)` — as
`json.dumps` renders an int (`f = 0`) or a float with `f` fraction
digits. -/
def dumpNum (m : Int) (f : Nat) : String :=
  if f = 0 then intToStr m
  else
    let ds₀ := digitsOf m.natAbs
    let ds := if ds₀.length < f + 1 then List.replicate (f + 1 - ds₀.length) '0' ++ ds₀ else ds₀
    let body := ds.take (ds.length - f) ++ '.' :: ds.drop (ds.length - f)
    if m < 0 then String.mk ('-' :: body) else String.mk body

mutual

/-- `json.dumps` with Python's default separators (`", "` and `": "`). -/
def Json.dumps : Json → String
  | .null => "null"
  | .bool true => "true"
  | .bool false => "false"
  | .num m f => dumpNum m f
  | .str s => "\"" ++ escape s ++ "\""
  | .arr items => "[" ++ dumpsList items ++ "]"
  | .obj es => "\x7b" ++ dumpsKVs es ++ "\x7d"

/-- Comma-joined dump of array items. -/
def dumpsList : List Json → String
  | [] => ""
  | [x] => Json.dumps x
  | x :: y :: rest => Json.dumps x ++ ", " ++ dumpsList (y :: rest)

/-- Comma-joined dump of object members. -/
def dumpsKVs : List (String × Json) → String
  | [] => ""
  | [(k, v)] => "\"" ++ escape k ++ "\": " ++ Json.dumps v
  | (k, v) :: e :: rest =>
    "\"" ++ escape k ++ "\": " ++ Json.dumps v ++ ", " ++ dumpsKVs (e :: rest)

end

/-- Reverse of a JSON string escape sequence: the literal escapes map to
themselves, the letter escapes to their control characters. -/
def unescapeChar (e : Char) : Option Char :=
  if e = 'n' then some '\n'
  else if e = 't' then some '\t'
  else if e = 'r' then some '\r'
  else if e = '"' ∨ e = '\\' ∨ e = '/' then some e
  else none

/-- Skip JSON whitespace. -/
def skipWs : List Char → List Char
  | [] => []
  | c :: rest => if c = ' ' ∨ c = '\n' ∨ c = '\t' ∨ c = '\r' then skipWs rest else c :: rest

/-- Body of a JSON string literal after the opening quote: the decoded
characters and the remainder after the closing quote. -/
def parseStringBody : List Char → Option (List Char × List Char)
  | [] => none
  | '"' :: rest => some ([], rest)
  | '\\' :: rest =>
    match rest with
    | [] => none
    | e :: rest' =>
      match unescapeChar e with
      | none => none
      | some c =>
        match parseStringBody rest' with
        | none => none
        | some (s, r) => some (c :: s, r)
  | c :: rest =>
    match parseStringBody rest with
    | none => none
    | some (s, r) => some (c :: s, r)

/-- Leading run of decimal digits and the remainder. -/
def spanDigits (cs : List Char) : List Char × List Char :=
  (cs.takeWhile Char.isDigit, cs.dropWhile Char.isDigit)

/-- Value of a list of decimal digit characters. -/
def digitsToNat (ds : List Char) : Nat :=
  ds.foldl (fun acc c => acc * 10 + (c.toNat - 48)) 0

/-- JSON number literal (optional sign, integer part, optional fraction; the
exponent form never appears in the lines handled here). -/
def parseNumber (cs : List Char) : Option (Json × List Char) :=
  let sp : Bool × List Char :=
    match cs with
    | '-' :: rest => (true, rest)
    | _ => (false, cs)
  let ip := spanDigits sp.2
  if ip.1 = [] then none
  else
    match ip.2 with
    | '.' :: cs₃ =>
      let fp := spanDigits cs₃
      if fp.1 = [] then none
      else
        let mag : Int := Int.ofNat (digitsToNat (ip.1 ++ fp.1))
        some (.num (if sp.1 then -mag else mag) fp.1.length, fp.2)
    | _ =>
      let mag : Int := Int.ofNat (digitsToNat ip.1)
      some (.num (if sp.1 then -mag else mag) 0, ip.2)

/-- The remainder of `cs` after the literal word `w`, when `w` is its
prefix. -/
def litRest (w : List Char) (cs : List Char) : Option (List Char) :=
  match w, cs with
  | [], tail => some tail
  | a :: w', b :: cs' => if a = b then litRest w' cs' else none
  | _ :: _, [] => none

mutual

/-- Fuel-bounded recursive-descent JSON value (the core of `json.loads`). -/
def parseValue : Nat → List Char → Option (Json × List Char)
  | 0, _ => none
  | fuel + 1, input =>
    match skipWs input with
    | [] => none
    | c :: body =>
      if c = 'n' then (litRest ['u', 'l', 'l'] body).map (fun tail => (Json.null, tail))
      else if c = 't' then
        (litRest ['r', 'u', 'e'] body).map (fun tail => (Json.bool true, tail))
      else if c = 'f' then
        (litRest ['a', 'l', 's', 'e'] body).map (fun tail => (Json.bool false, tail))
      else if c = '"' then
        (parseStringBody body).map (fun p => (Json.str (String.mk p.1), p.2))
      else if c = '[' then
        match skipWs body with
        | ']' :: tail => some (.arr [], tail)
        | inner =>
          (parseItems fuel inner).map (fun p => (Json.arr p.1, p.2))
      else if c = '\x7b' then
        match skipWs body with
        | '\x7d' :: tail => some (.obj [], tail)
        | inner =>
          (parseMembers fuel inner).map (fun p => (Json.obj p.1, p.2))
      else parseNumber (c :: body)

/-- One-or-more comma-separated array items up to the closing bracket. -/
def parseItems : Nat → List Char → Option (List Json × List Char)
  | 0, _ => none
  | fuel + 1, input =>
    match parseValue fuel input with
    | none => none
    | some (elem, after) =>
      match skipWs after with
      | ',' :: more =>
        match parseItems fuel more with
        | none => none
        | some (elems, tail) => some (elem :: elems, tail)
      | ']' :: tail => some ([elem], tail)
      | _ => none

/-- One-or-more comma-separated object members up to the closing brace. -/
def parseMembers : Nat → List Char → Option (List (String × Json) × List Char)
  | 0, _ => none
  | fuel + 1, input =>
    match skipWs input with
    | '"' :: keyStart =>
      match parseStringBody keyStart with
      | none => none
      | some (key, afterKey) =>
        match skipWs afterKey with
        | ':' :: afterColon =>
          match parseValue fuel (skipWs afterColon) with
          | none => none
          | some (value, afterVal) =>
            match skipWs afterVal with
            | ',' :: more =>
              match parseMembers fuel more with
              | none => none
              | some (entries, tail) => some ((String.mk key, value) :: entries, tail)
            | '\x7d' :: tail => some ([(String.mk key, value)], tail)
            | _ => none
        | _ => none
    | _ => none

end

/-- `json.loads`: parse a complete JSON value, allowing surrounding
whitespace only. -/
def Json.loads (s : String) : Option Json :=
  match parseValue (2 * s.length + 2) s.data with
  | none => none
  | some (v, rest) => if skipWs rest = [] then some v else none

/-- The request line written by `send_request` (test script line 159):
`json.dumps(request) + "\n"`. -/
def writeRequest (req : Json) : String :=
  Json.dumps req ++ "\n"

/-- The response-line read loop of `send_request` (test script lines
163-178): characters up to the first newline of the session's stdout
stream. -/
def readLine (stream : String) : String :=
  String.mk (stream.data.takeWhile (fun c => c ≠ '\n'))

/-- `send_request`'s response handling (test script lines 180-195): an empty
line raises (`none`); the line is parsed as the session response, whose
`"stdout"` field — a string — is parsed again to obtain the JSON-RPC
response.  A missing `"stdout"` key or a non-string value raises
(`none`). -/
def send_request (stream : String) : Option Json :=
  let line := readLine stream
  if line = "" then none
  else
    match Json.loads line with
    | none => none
    | some sess =>
      match getIndex sess "stdout" with
      | some (.str out) => Json.loads out
      | _ => none

/-- The fixed click target of the test script (line 49). -/
def target_params : Json :=
  .obj [("selector", .obj [("byRole", .str "AXButton")])]

/-- The `desktop.confirm.issue` request built by the test script
(lines 51-62). -/
def issue_request (workspace : String) : Json :=
  .obj [("id", .str "issue-1"), ("method", .str "desktop.confirm.issue"),
    ("params", .obj [("intent", .obj [("method", .str "desktop.click"),
      ("params", .obj [("target", target_params)])]), ("ttlMs", .num 60000 0)]),
    ("workspacePath", .str workspace)]

/-- The `desktop.click` request carrying the confirmation token, as built
for the first and second uses (lines 76-84 and 110-118). -/
def use_request (reqId workspace tok : String) : Json :=
  .obj [("id", .str reqId), ("method", .str "desktop.click"),
    ("params", .obj [("target", target_params),
      ("confirm", .obj [("token", .str tok)])]),
    ("workspacePath", .str workspace)]

/-- First eight characters of the token, as printed by line 72. -/
def take8 (s : String) : String :=
  String.mk (s.data.take 8)

/-- Outcome of a run of the test script's `main`: the exit code handed to
`sys.exit`, the requests sent over the session, and the lines printed to
stdout. -/
structure RunResult where
  exitCode : Nat
  sent : List Json
  output : List String
deriving DecidableEq

/-- The warning printed by line 136 when the second denial's reason is not
`used`. -/
def warnReasonLine (reason? : Option Json) : String :=
  "⚠ details.reason = \x27" ++ pyStr reason? ++ "\x27（期望 \x27used\x27）"

/-- Step 3 of the test script's `main` (lines 108-145): present the same
token a second time and check the denial.  `rest2` are the remaining
responses the transport will deliver; a missing response or a response whose
shape makes the script raise yields `none`. -/
def mainStep3 (workspace tok : String) (sent2 : List Json) (out : List String)
    (rest2 : List Json) : Option RunResult :=
  let out := out ++ ["[4] 第二次使用同一 token（应该拒绝）..."]
  match rest2 with
  | [] => none
  | use2Resp :: _ =>
    let sent3 := sent2 ++ [use_request "use-2" workspace tok]
    match pyContains "error" use2Resp with
    | none => none
    | some false =>
      some ⟨1, sent3, out ++ ["✗ 第二次使用 token 没有返回错误（期望被拒绝）",
        "  Response: " ++ Json.dumps use2Resp]⟩
    | some true =>
      match getIndex use2Resp "error" with
      | none => none
      | some errV =>
        match dictGet errV "code", dictGet errV "details" with
        | some code?, some details? =>
          let details := details?.getD (.obj [])
          match dictGet details "reason" with
          | none => none
          | some reason? =>
            if code? = some (.str "DESKTOP_CONFIRM_REQUIRED") then
              let out := out ++ ["✓ 返回 DESKTOP_CONFIRM_REQUIRED"]
              let out := if reason? = some (.str "used")
                then out ++ ["✓ details.reason = \x27used\x27（token 已消费）"]
                else out ++ [warnReasonLine reason?]
              some ⟨0, sent3, out ++ ["\n=== ✅ Token Reuse 测试通过 ==="]⟩
            else
              some ⟨1, sent3, out ++ ["✗ 返回错误码不符", "  期望: DESKTOP_CONFIRM_REQUIRED",
                "  实际: " ++ pyStr code?, "  Response: " ++ Json.dumps use2Resp]⟩
        | _, _ => none

/-- Step 2 of the test script's `main` (lines 74-106): first use of the
token.  A `DESKTOP_PERMISSION_MISSING` error skips the reuse test with exit
code 0; a confirm-related error fails with exit code 1; any other error (or
success) is treated as the token having been consumed and the run proceeds
to step 3.  A non-string error code makes the `"CONFIRM" in error_code` test
raise (`none`). -/
def mainStep2 (workspace tok : String) (sent1 : List Json) (out : List String)
    (rest1 : List Json) : Option RunResult :=
  let out := out ++ ["[3] 第一次使用 token（会消费）..."]
  match rest1 with
  | [] => none
  | use1Resp :: rest2 =>
    let sent2 := sent1 ++ [use_request "use-1" workspace tok]
    match pyContains "error" use1Resp with
    | none => none
    | some true =>
      match getIndex use1Resp "error" with
      | none => none
      | some errV =>
        match dictGet errV "code" with
        | none => none
        | some code? =>
          if code? = some (.str "DESKTOP_PERMISSION_MISSING") then
            some ⟨0, sent2, out ++ ["⚠ 权限缺失，跳过 reuse 测试", "  需先授予辅助功能权限"]⟩
          else
            match code? with
            | some (.str c) =>
              if hasSub "CONFIRM" c || c = "INVALID_TOKEN" || c = "TOKEN_EXPIRED" then
                some ⟨1, sent2, out ++ ["✗ 第一次使用 token 失败（token 验证问题）: " ++ c,
                  "  Response: " ++ Json.dumps use1Resp]⟩
              else
                mainStep3 workspace tok sent2
                  (out ++ ["✓ Token 已消费（操作失败: " ++ c ++ "）\n"]) rest2
            | _ => none
    | some false =>
      mainStep3 workspace tok sent2 (out ++ ["✓ Token 已消费（操作成功）\n"]) rest2

/-- The test script's `main` (lines 21-145), with the transport abstracted as
the list of JSON-RPC responses `send_request` will deliver in order.  `none`
models an uncaught exception (missing response, or a response shape on which
the script raises); tokens that are not strings are likewise outside the
modelled fragment (line 72 slices the token).  Otherwise the result carries
the exit code, the requests sent, and the stdout lines. -/
def main (workspace : String) (desktopctlExists : Bool) (responses : List Json) :
    Option RunResult :=
  let out := ["=== Token Reuse 测试（Session 模式）===", "Workspace: " ++ workspace ++ "\n"]
  if desktopctlExists = false then
    some ⟨1, [], out ++ ["✗ desktopctl 未编译", "  请先: cd mac/msgcode-desktopctl && swift build"]⟩
  else
    let out := out ++ ["[1] 启动 desktopctl session...", "[2] 签发 token..."]
    match responses with
    | [] => none
    | issueResp :: rest1 =>
      let sent1 := [issue_request workspace]
      match dictGet issueResp "result" with
      | none => none
      | some result? =>
        let resultV := result?.getD (.obj [])
        match dictGet resultV "token" with
        | none => none
        | some token? =>
          if truthyOpt token? = false then
            some ⟨1, sent1, out ++ ["✗ Token 签发失败", "  Response: " ++ Json.dumps issueResp]⟩
          else
            match token? with
            | some (.str tok) =>
              mainStep2 workspace tok sent1
                (out ++ ["✓ Token 已签发: " ++ take8 tok ++ "...\n"]) rest1
            | _ => none

/-! Store lemmas. -/

theorem lookup_setToken_self (s : TokenStore) (t : String) (rec r' : TokenRecord)
    (h : lookupToken s t = some rec) : lookupToken (setToken s t r') t = some r' := by
  induction s with
  | nil => simp [lookupToken] at h
  | cons hd tl ih =>
    obtain ⟨id, rc⟩ := hd
    by_cases hid : id = t
    · simp [lookupToken, setToken, hid]
    · simp [lookupToken, setToken, hid] at h ⊢
      exact ih h

theorem lookup_setToken_other (s : TokenStore) (t t' : String) (r' : TokenRecord)
    (h : t' ≠ t) : lookupToken (setToken s t r') t' = lookupToken s t' := by
  induction s with
  | nil => simp [setToken]
  | cons hd tl ih =>
    obtain ⟨id, rc⟩ := hd
    by_cases hid : id = t
    · subst hid
      simp [lookupToken, setToken, Ne.symm h]
    · simp only [setToken, if_neg hid]
      by_cases hid' : id = t'
      · simp [lookupToken, hid']
      · simp [lookupToken, hid', ih]

/-! Validator case lemmas, one per step of the §4.3 algorithm. -/

theorem vac_invalid {s : TokenStore} {now : Nat} {t : String} {i : Intent}
    (h : lookupToken s t = none) :
    validateAndConsume s now t i = (.Deny "invalid", s) := by
  simp [validateAndConsume, h]

theorem vac_expired {s : TokenStore} {now : Nat} {t : String} {i : Intent}
    {rec : TokenRecord} (h : lookupToken s t = some rec)
    (hx : now > rec.issuedAtMs + rec.ttlMs) :
    validateAndConsume s now t i = (.Deny "expired", s) := by
  simp [validateAndConsume, h, hx]

theorem vac_used {s : TokenStore} {now : Nat} {t : String} {i : Intent}
    {rec : TokenRecord} (h : lookupToken s t = some rec)
    (hx : ¬ now > rec.issuedAtMs + rec.ttlMs) (hu : rec.state = .Used) :
    validateAndConsume s now t i = (.Deny "used", s) := by
  simp [validateAndConsume, h, hx, hu]

theorem vac_mismatch {s : TokenStore} {now : Nat} {t : String} {i : Intent}
    {rec : TokenRecord} (h : lookupToken s t = some rec)
    (hx : ¬ now > rec.issuedAtMs + rec.ttlMs) (ha : rec.state = .Active)
    (hf : fingerprint i ≠ rec.intentFingerprint) :
    validateAndConsume s now t i = (.Deny "mismatch", s) := by
  simp [validateAndConsume, h, hx, ha, hf]

theorem vac_allow {s : TokenStore} {now : Nat} {t : String} {i : Intent}
    {rec : TokenRecord} (h : lookupToken s t = some rec)
    (hx : ¬ now > rec.issuedAtMs + rec.ttlMs) (ha : rec.state = .Active)
    (hf : fingerprint i = rec.intentFingerprint) :
    validateAndConsume s now t i = (.Allow, setToken s t { rec with state := .Used }) := by
  simp [validateAndConsume, h, hx, ha, hf]

/-- A token state is either `Active` or `Used`. -/
theorem state_active_of_ne_used {st : TokenState} (h : st ≠ .Used) : st = .Active := by
  cases st <;> simp_all

theorem vac_allow_iff (s : TokenStore) (now : Nat) (t : String) (i : Intent) :
    (validateAndConsume s now t i).1 = .Allow ↔
      ∃ rec, lookupToken s t = some rec ∧ rec.state = .Active ∧
        ¬ now > rec.issuedAtMs + rec.ttlMs ∧ fingerprint i = rec.intentFingerprint := by
  constructor
  · intro h
    match hl : lookupToken s t with
    | none => rw [vac_invalid hl] at h; exact absurd h (by simp)
    | some rec =>
      by_cases hx : now > rec.issuedAtMs + rec.ttlMs
      · rw [vac_expired hl hx] at h; exact absurd h (by simp)
      · by_cases hu : rec.state = .Used
        · rw [vac_used hl hx hu] at h; exact absurd h (by simp)
        · have ha := state_active_of_ne_used hu
          by_cases hf : fingerprint i = rec.intentFingerprint
          · exact ⟨rec, rfl, ha, hx, hf⟩
          · rw [vac_mismatch hl hx ha hf] at h; exact absurd h (by simp)
  · rintro ⟨rec, hl, ha, hx, hf⟩
    rw [vac_allow hl hx ha hf]

theorem vac_deny_store {s : TokenStore} {now : Nat} {t : String} {i : Intent}
    (h : (validateAndConsume s now t i).1 ≠ .Allow) :
    (validateAndConsume s now t i).2 = s := by
  match hl : lookupToken s t with
  | none => rw [vac_invalid hl]
  | some rec =>
    by_cases hx : now > rec.issuedAtMs + rec.ttlMs
    · rw [vac_expired hl hx]
    · by_cases hu : rec.state = .Used
      · rw [vac_used hl hx hu]
      · have ha := state_active_of_ne_used hu
        by_cases hf : fingerprint i = rec.intentFingerprint
        · exact absurd (by rw [vac_allow hl hx ha hf] : (validateAndConsume s now t i).1 = .Allow) h
        · rw [vac_mismatch hl hx ha hf]

/-- A `Used` record survives any `validateAndConsume` call untouched. -/
theorem vac_preserves_used {s : TokenStore} {t : String} {rec : TokenRecord}
    (hl : lookupToken s t = some rec) (hu : rec.state = .Used)
    (now : Nat) (t' : String) (i : Intent) :
    lookupToken ((validateAndConsume s now t' i).2) t = some rec := by
  by_cases heq : t' = t
  · subst heq
    by_cases hx : now > rec.issuedAtMs + rec.ttlMs
    · rw [vac_expired hl hx]; exact hl
    · rw [vac_used hl hx hu]; exact hl
  · by_cases hall : (validateAndConsume s now t' i).1 = .Allow
    · obtain ⟨rec', hl', ha', hx', hf'⟩ := (vac_allow_iff s now t' i).mp hall
      rw [vac_allow hl' hx' ha' hf']
      rw [lookup_setToken_other s t' t _ (Ne.symm heq)]
      exact hl
    · rw [vac_deny_store hall]; exact hl

/-! Concrete demonstration values used by the closed witnesses below. -/

/-- The intent the test script's token is issued for. -/
def demoIntent : Intent :=
  { method := "desktop.click", params := .obj [("target", target_params)] }

/-- A different intent (another click target). -/
def demoIntent2 : Intent :=
  { method := "desktop.click",
    params := .obj [("target", .obj [("selector", .obj [("byRole", .str "AXLink")])])] }

/-- An `Active` record issued at time 0 with ttl 10 for `demoIntent`. -/
def demoActiveRec : TokenRecord :=
  { intentFingerprint := fingerprint demoIntent, issuedAtMs := 0, ttlMs := 10,
    state := .Active }

/-- The same record after consumption. -/
def demoUsedRec : TokenRecord :=
  { demoActiveRec with state := .Used }

/-- A store holding the one `Active` demo token. -/
def demoStore : TokenStore :=
  [("tok", demoActiveRec)]

/-- A store holding the demo token already consumed. -/
def demoUsedStore : TokenStore :=
  [("tok", demoUsedRec)]

/-- Minting a token with a fresh id leaves every other id's record alone. -/
theorem lookup_issue_other {s : TokenStore} {n : Nat} {i : Intent} {ttl : Nat}
    {id : String} {r : String × TokenStore}
    (h : issue s n i ttl id = .ok r) {t : String} (hne : id ≠ t) :
    lookupToken r.2 t = lookupToken s t := by
  unfold issue at h
  by_cases httl : ttl = 0
  · simp [httl] at h
  · simp only [if_neg httl, Except.ok.injEq] at h
    rw [← h]
    simp [lookupToken, hne]

/-- C3: `validateAndConsume(presentedTokenId, actualIntent)` performs exactly
four checks in this order — store lookup (`Deny` reason `invalid`), expiry
(`Deny` reason `expired`), used-state (`Deny` reason `used`), fingerprint
match (`Deny` reason `mismatch`) — each short-circuiting to a terminal
`Deny`, and the transition `Active → Used` happens if and only if all four
checks pass and `Allow` is returned; no other code path (denials, other
tokens' consumptions, or `issue`) ever flips `Active → Used`. -/
theorem c3_validator_state_machine (s : TokenStore) (now : Nat) (t : String) (i : Intent) :
    (lookupToken s t = none → validateAndConsume s now t i = (.Deny "invalid", s)) ∧
    (∀ rec, lookupToken s t = some rec → now > rec.issuedAtMs + rec.ttlMs →
      validateAndConsume s now t i = (.Deny "expired", s)) ∧
    (∀ rec, lookupToken s t = some rec → ¬ now > rec.issuedAtMs + rec.ttlMs →
      rec.state = .Used → validateAndConsume s now t i = (.Deny "used", s)) ∧
    (∀ rec, lookupToken s t = some rec → ¬ now > rec.issuedAtMs + rec.ttlMs →
      rec.state = .Active → fingerprint i ≠ rec.intentFingerprint →
      validateAndConsume s now t i = (.Deny "mismatch", s)) ∧
    ((validateAndConsume s now t i).1 = .Allow ↔
      ∃ rec, lookupToken s t = some rec ∧ rec.state = .Active ∧
        ¬ now > rec.issuedAtMs + rec.ttlMs ∧ fingerprint i = rec.intentFingerprint) ∧
    ((validateAndConsume s now t i).1 ≠ .Allow → (validateAndConsume s now t i).2 = s) ∧
    (∀ rec, lookupToken s t = some rec → rec.state = .Active →
      ¬ now > rec.issuedAtMs + rec.ttlMs → fingerprint i = rec.intentFingerprint →
      validateAndConsume s now t i = (.Allow, setToken s t { rec with state := .Used }) ∧
      lookupToken (validateAndConsume s now t i).2 t = some { rec with state := .Used } ∧
      ∀ t', t' ≠ t → lookupToken (validateAndConsume s now t i).2 t' = lookupToken s t') ∧
    (∀ n₀ i₀ ttl₀ id₀ r, issue s n₀ i₀ ttl₀ id₀ = .ok r → id₀ ≠ t →
      lookupToken r.2 t = lookupToken s t) := by
  refine ⟨vac_invalid, fun rec hl hx => vac_expired hl hx,
    fun rec hl hx hu => vac_used hl hx hu,
    fun rec hl hx ha hf => vac_mismatch hl hx ha hf,
    vac_allow_iff s now t i, vac_deny_store, ?_,
    fun n₀ i₀ ttl₀ id₀ r hr hne => lookup_issue_other hr hne⟩
  intro rec hl ha hx hf
  have hA := vac_allow hl hx ha hf
  refine ⟨hA, ?_, ?_⟩
  · rw [hA]; exact lookup_setToken_self s t rec _ hl
  · intro t' ht'; rw [hA]; exact lookup_setToken_other s t t' _ ht'

/-- Witness for C3: on the demo store the fully-passing path consumes the
token and returns `Allow`. -/
theorem c3_witness :
    validateAndConsume demoStore 5 "tok" demoIntent =
      (.Allow, setToken demoStore "tok" { demoActiveRec with state := .Used }) :=
  ((c3_validator_state_machine demoStore 5 "tok" demoIntent).2.2.2.2.2.2.1
    demoActiveRec rfl rfl (by decide) rfl).1

/-- Counterexample for C1 as stated: a first presentation after the ttl has
elapsed returns `Deny "expired"`, not `Allow`; and after a successful first
use, a later presentation past the ttl is denied with reason `"expired"`,
not `"used"` (the expiry check precedes the used check). -/
theorem c1_counterexample :
    (validateAndConsume demoStore 20 "tok" demoIntent).1 = .Deny "expired" ∧
    (validateAndConsume (validateAndConsume demoStore 5 "tok" demoIntent).2 20 "tok"
        demoIntent).1 = .Deny "expired" := by
  decide

/-- C1 (amended): for any issued token `t` and the intent `i` it was issued
for, provided the presentation times do not exceed `issuedAtMs + ttlMs`, the
first `validateAndConsume(t, i)` returns `Allow`, and every subsequent call
presenting the same `t`, with any intent, returns `Deny` with reason
`"used"`; a token passes the used-check successfully at most once in its
lifetime. -/
theorem c1_single_use (s : TokenStore) (t : String) (i : Intent) (rec : TokenRecord)
    (now : Nat) (hl : lookupToken s t = some rec) (ha : rec.state = .Active)
    (hf : fingerprint i = rec.intentFingerprint)
    (ht : ¬ now > rec.issuedAtMs + rec.ttlMs) :
    (validateAndConsume s now t i).1 = .Allow ∧
    ∀ i' now', ¬ now' > rec.issuedAtMs + rec.ttlMs →
      (validateAndConsume (validateAndConsume s now t i).2 now' t i').1 = .Deny "used" := by
  have hA := vac_allow hl ht ha hf
  constructor
  · rw [hA]
  · intro i' now' ht'
    have hl' : lookupToken (validateAndConsume s now t i).2 t =
        some { rec with state := .Used } := by
      rw [hA]; exact lookup_setToken_self s t rec _ hl
    rw [vac_used hl' ht' rfl]

/-- Witness for C1: the demo token is allowed once at time 5 and denied with
reason `used` at time 8, even for a different intent. -/
theorem c1_witness :
    (validateAndConsume demoStore 5 "tok" demoIntent).1 = .Allow ∧
    (validateAndConsume (validateAndConsume demoStore 5 "tok" demoIntent).2 8 "tok"
        demoIntent2).1 = .Deny "used" := by
  have h := c1_single_use demoStore "tok" demoIntent demoActiveRec 5 rfl rfl rfl (by decide)
  exact ⟨h.1, h.2 demoIntent2 8 (by decide)⟩

/-- C4: a denial with reason `mismatch`, `invalid` or `expired` never marks
the token `Used` (the store is unchanged); in particular after a `mismatch`
denial the token is still `Active` and a later call with the correct intent,
within the ttl, returns `Allow`. -/
theorem c4_denial_preserves_active (s : TokenStore) (now : Nat) (t : String) (i' : Intent) :
    (∀ r, (validateAndConsume s now t i').1 = .Deny r →
      (r = "mismatch" ∨ r = "invalid" ∨ r = "expired") →
      (validateAndConsume s now t i').2 = s) ∧
    (∀ rec i now', lookupToken s t = some rec → rec.state = .Active →
      ¬ now > rec.issuedAtMs + rec.ttlMs → fingerprint i' ≠ rec.intentFingerprint →
      validateAndConsume s now t i' = (.Deny "mismatch", s) ∧
      lookupToken (validateAndConsume s now t i').2 t = some rec ∧
      (¬ now' > rec.issuedAtMs + rec.ttlMs → fingerprint i = rec.intentFingerprint →
        (validateAndConsume (validateAndConsume s now t i').2 now' t i).1 = .Allow)) := by
  constructor
  · intro r h _
    exact vac_deny_store (by simp [h])
  · intro rec i now' hl ha hx hf
    have hm := vac_mismatch hl hx ha hf
    refine ⟨hm, ?_, ?_⟩
    · rw [hm]; exact hl
    · intro ht' hfi
      rw [hm]
      rw [vac_allow hl ht' ha hfi]

/-- Witness for C4: presenting the wrong intent at time 5 is denied with
`mismatch` and leaves the demo store unchanged; the correct intent at time 8
is then allowed. -/
theorem c4_witness :
    validateAndConsume demoStore 5 "tok" demoIntent2 = (.Deny "mismatch", demoStore) ∧
    (validateAndConsume (validateAndConsume demoStore 5 "tok" demoIntent2).2 8 "tok"
        demoIntent).1 = .Allow := by
  have h := (c4_denial_preserves_active demoStore 5 "tok" demoIntent2).2
    demoActiveRec demoIntent 8 rfl rfl (by decide) (by decide)
  exact ⟨h.1, h.2.2 (by decide) rfl⟩

/-- C6: `Used` and `Expired` are terminal.  A `Used` record is observed
`Used` at every time and survives every `validateAndConsume` call and every
fresh-id `issue` unchanged; once a record is observed `Expired`, every later
presentation of the same id is denied `expired` without a state change and
the record is still observed `Expired`. -/
theorem c6_terminal_states (s : TokenStore) (t : String) (rec : TokenRecord)
    (hl : lookupToken s t = some rec) :
    (rec.state = .Used →
      (∀ now, observedState rec now = .Used) ∧
      (∀ now t' i, lookupToken ((validateAndConsume s now t' i).2) t = some rec) ∧
      (∀ n₀ i₀ ttl₀ id₀ r, issue s n₀ i₀ ttl₀ id₀ = .ok r → id₀ ≠ t →
        lookupToken r.2 t = some rec)) ∧
    (∀ now, observedState rec now = .Expired →
      ∀ now' i, now ≤ now' →
        validateAndConsume s now' t i = (.Deny "expired", s) ∧
        observedState rec now' = .Expired) := by
  constructor
  · intro hu
    refine ⟨fun now => by simp [observedState, hu], ?_, ?_⟩
    · intro now t' i
      exact vac_preserves_used hl hu now t' i
    · intro n₀ i₀ ttl₀ id₀ r hr hne
      rw [lookup_issue_other hr hne]; exact hl
  · intro now hexp now' i hle
    have hsplit : rec.state = .Active ∧ now > rec.issuedAtMs + rec.ttlMs := by
      cases hst : rec.state with
      | Used => simp [observedState, hst] at hexp
      | Active =>
        by_cases hgt : now > rec.issuedAtMs + rec.ttlMs
        · exact ⟨rfl, hgt⟩
        · simp [observedState, hst, hgt] at hexp
    obtain ⟨hst, hgt⟩ := hsplit
    have hgt' : now' > rec.issuedAtMs + rec.ttlMs := lt_of_lt_of_le hgt hle
    exact ⟨vac_expired hl hgt', by simp [observedState, hst, hgt']⟩

/-- Witness for C6: the consumed demo token survives a further presentation
unchanged, and the active demo token observed expired at time 15 is denied
`expired` at time 20. -/
theorem c6_witness :
    lookupToken ((validateAndConsume demoUsedStore 5 "tok" demoIntent).2) "tok" =
      some demoUsedRec ∧
    validateAndConsume demoStore 20 "tok" demoIntent = (.Deny "expired", demoStore) := by
  have h1 := (c6_terminal_states demoUsedStore "tok" demoUsedRec rfl).1 rfl
  have h2 := (c6_terminal_states demoStore "tok" demoActiveRec rfl).2 15 (by decide)
    20 demoIntent (by decide)
  exact ⟨h1.2.1 5 "tok" demoIntent, h2.1⟩

/-- An action executor whose underlying action always fails with an
`ElementNotFound`-style error. -/
def demoExec : String → Json → Except String Json :=
  fun _ _ => .error "ELEMENT_NOT_FOUND"

/-- The sensitive request presenting the demo token for the intent it was
issued for. -/
def demoReq : Request :=
  { method := "desktop.click", params := .obj [("target", target_params)],
    confirm := some "tok" }

/-- The same sensitive request with no confirmation token attached. -/
def demoReqNoConfirm : Request :=
  { method := "desktop.click", params := .obj [("target", target_params)],
    confirm := none }

/-- C7: a sensitive request carrying no confirmation token is answered
`DESKTOP_CONFIRM_REQUIRED` with reason `missing` without consulting the
token store (the result is the same for every store and the store is
unchanged); a failing prerequisite permission check is answered
`DESKTOP_PERMISSION_MISSING` before, and entirely bypassing, the token
machinery — again for every store, with no store change. -/
theorem c7_gates_before_token (exec : String → Json → Except String Json)
    (s : TokenStore) (now : Nat) (req : Request) :
    (req.confirm = none →
      dispatch true exec s now req = (.confirmRequired "missing", s) ∧
      errorCodeOf (dispatch true exec s now req).1 = some "DESKTOP_CONFIRM_REQUIRED" ∧
      ∀ s₂, dispatch true exec s₂ now req = (.confirmRequired "missing", s₂)) ∧
    (dispatch false exec s now req = (.permissionMissing, s) ∧
      errorCodeOf (dispatch false exec s now req).1 = some "DESKTOP_PERMISSION_MISSING" ∧
      ∀ s₂, dispatch false exec s₂ now req = (.permissionMissing, s₂)) := by
  constructor
  · intro hc
    have h : ∀ s₂, dispatch true exec s₂ now req = (.confirmRequired "missing", s₂) := by
      intro s₂; simp [dispatch, hc]
    exact ⟨h s, by rw [h s]; rfl, h⟩
  · have h : ∀ s₂, dispatch false exec s₂ now req = (.permissionMissing, s₂) := by
      intro s₂; simp [dispatch]
    exact ⟨h s, by rw [h s]; rfl, h⟩

/-- Witness for C7: the demo request without a token is answered `missing`,
and with permission denied the demo request is answered
`permissionMissing`, both leaving the demo store unchanged. -/
theorem c7_witness :
    dispatch true demoExec demoStore 5 demoReqNoConfirm =
      (.confirmRequired "missing", demoStore) ∧
    dispatch false demoExec demoStore 5 demoReq = (.permissionMissing, demoStore) :=
  ⟨((c7_gates_before_token demoExec demoStore 5 demoReqNoConfirm).1 rfl).1,
   (c7_gates_before_token demoExec demoStore 5 demoReq).2.1⟩

/-- Counterexample for C2 as stated: after a first use at time 5 whose
underlying action failed (token consumed), a second presentation of the same
token at time 20 — past the ttl — is answered `DESKTOP_CONFIRM_REQUIRED`
with reason `"expired"`, not `"used"`: the claim's unconditional second
`reason="used"` does not hold because the expiry check precedes the used
check. -/
theorem c2_counterexample :
    (dispatch true demoExec demoStore 5 demoReq).1 = .actionError "ELEMENT_NOT_FOUND" ∧
    (dispatch true demoExec (dispatch true demoExec demoStore 5 demoReq).2 20 demoReq).1 =
      .confirmRequired "expired" := by
  decide

/-- C2 (amended): once `validateAndConsume` returns `Allow`, the dispatcher
executes the underlying action regardless of that action's own outcome; if
the action fails, its error is surfaced under its own distinct error code,
never re-wrapped as a confirmation error, and the token remains consumed, so
a second presentation of the same token within its ttl yields
`DESKTOP_CONFIRM_REQUIRED` with reason `"used"`. -/
theorem c2_consumption_independent (exec : String → Json → Except String Json)
    (s : TokenStore) (rec : TokenRecord) (now : Nat) (t : String) (req : Request)
    (c : String)
    (hc : req.confirm = some t)
    (hl : lookupToken s t = some rec) (ha : rec.state = .Active)
    (hf : fingerprint (intentOf req) = rec.intentFingerprint)
    (ht : ¬ now > rec.issuedAtMs + rec.ttlMs)
    (hx : exec req.method req.params = .error c) :
    dispatch true exec s now req =
      (.actionError c, setToken s t { rec with state := .Used }) ∧
    (∀ r, (dispatch true exec s now req).1 ≠ .confirmRequired r) ∧
    errorCodeOf (dispatch true exec s now req).1 = some c ∧
    lookupToken (dispatch true exec s now req).2 t = some { rec with state := .Used } ∧
    (∀ exec₂ now' req', req'.confirm = some t → ¬ now' > rec.issuedAtMs + rec.ttlMs →
      (dispatch true exec₂ (dispatch true exec s now req).2 now' req').1 =
        .confirmRequired "used") := by
  have hA := vac_allow hl ht ha hf
  have hd : dispatch true exec s now req =
      (.actionError c, setToken s t { rec with state := .Used }) := by
    simp [dispatch, hc, hA, hx]
  refine ⟨hd, ?_, ?_, ?_, ?_⟩
  · intro r; rw [hd]; simp
  · rw [hd]; rfl
  · rw [hd]; exact lookup_setToken_self s t rec _ hl
  · intro exec₂ now' req' hc' ht'
    rw [hd]
    have hl' : lookupToken (setToken s t { rec with state := .Used }) t =
        some { rec with state := .Used } := lookup_setToken_self s t rec _ hl
    have hu := vac_used (i := intentOf req') hl' ht' rfl
    simp [dispatch, hc', hu]

/-- Witness for C2 (amended): first use at time 5 surfaces the action's own
`ELEMENT_NOT_FOUND` while consuming the token; a second presentation at time
8 (within the ttl) is denied with reason `used`. -/
theorem c2_witness :
    dispatch true demoExec demoStore 5 demoReq =
      (.actionError "ELEMENT_NOT_FOUND",
        setToken demoStore "tok" { demoActiveRec with state := .Used }) ∧
    (dispatch true demoExec (dispatch true demoExec demoStore 5 demoReq).2 8 demoReq).1 =
      .confirmRequired "used" := by
  have h := c2_consumption_independent demoExec demoStore demoActiveRec 5 "tok" demoReq
    "ELEMENT_NOT_FOUND" rfl rfl rfl rfl (by decide) rfl
  exact ⟨h.1, h.2.2.2.2 demoExec 8 demoReq rfl (by decide)⟩

/-! Canonicalization lemmas. -/

theorem canonList_eq_map (l : List Json) : canonList l = l.map canonicalize := by
  induction l with
  | nil => simp [canonList]
  | cons x xs ih => simp [canonList, ih]

theorem canonKVs_eq_map (l : List (String × Json)) :
    canonKVs l = l.map (fun p => (p.1, canonicalize p.2)) := by
  induction l with
  | nil => simp [canonKVs]
  | cons p rest ih =>
    obtain ⟨k, v⟩ := p
    simp [canonKVs, ih]

/-- Strict key ordering on object entries. -/
def keyLT (a b : String × Json) : Prop := a.1 < b.1

instance : IsAntisymm (String × Json) keyLT :=
  ⟨fun _ _ h h' => absurd h' (lt_asymm h)⟩

theorem pairwise_keyLT {l : List (String × Json)} (h1 : l.Pairwise keyLE)
    (h2 : l.Pairwise fun a b => a.1 ≠ b.1) : l.Pairwise keyLT := by
  induction l with
  | nil => exact .nil
  | cons p rest ih =>
    obtain ⟨h1p, h1r⟩ := List.pairwise_cons.mp h1
    obtain ⟨h2p, h2r⟩ := List.pairwise_cons.mp h2
    exact List.Pairwise.cons (fun q hq => lt_of_le_of_ne (h1p q hq) (h2p q hq)) (ih h1r h2r)

/-- Key-sorting two permuted entry lists with pairwise-distinct keys gives
the same list. -/
theorem sortByKey_perm_eq {l₁ l₂ : List (String × Json)} (hp : l₁.Perm l₂)
    (hn : l₁.Pairwise fun a b => a.1 ≠ b.1) : sortByKey l₁ = sortByKey l₂ := by
  have hsym : ∀ {x y : String × Json}, x.1 ≠ y.1 → y.1 ≠ x.1 := fun h => Ne.symm h
  have hp₁ := List.perm_insertionSort keyLE l₁
  have hp₂ := List.perm_insertionSort keyLE l₂
  have hn₂ : l₂.Pairwise fun a b => a.1 ≠ b.1 :=
    (List.Perm.pairwise_iff hsym hp).mp hn
  have hn₁' : (List.insertionSort keyLE l₁).Pairwise fun a b => a.1 ≠ b.1 :=
    (List.Perm.pairwise_iff hsym hp₁).mpr hn
  have hn₂' : (List.insertionSort keyLE l₂).Pairwise fun a b => a.1 ≠ b.1 :=
    (List.Perm.pairwise_iff hsym hp₂).mpr hn₂
  have st₁ : (List.insertionSort keyLE l₁).Pairwise keyLT :=
    pairwise_keyLT (List.sorted_insertionSort keyLE l₁) hn₁'
  have st₂ : (List.insertionSort keyLE l₂).Pairwise keyLT :=
    pairwise_keyLT (List.sorted_insertionSort keyLE l₂) hn₂'
  exact List.eq_of_perm_of_sorted (hp₁.trans (hp.trans hp₂.symm)) st₁ st₂

/-- Canonicalizing an object is invariant under reordering its entries
(distinct keys). -/
theorem canonicalize_obj_perm (l₁ l₂ : List (String × Json)) (hp : l₁.Perm l₂)
    (hn : (l₁.map Prod.fst).Nodup) :
    canonicalize (.obj l₁) = canonicalize (.obj l₂) := by
  have hp' : (canonKVs l₁).Perm (canonKVs l₂) := by
    rw [canonKVs_eq_map, canonKVs_eq_map]
    exact hp.map _
  have hkeys : l₁.Pairwise fun a b => a.1 ≠ b.1 := List.pairwise_map.mp hn
  have hn' : (canonKVs l₁).Pairwise fun a b => a.1 ≠ b.1 := by
    rw [canonKVs_eq_map]
    exact List.pairwise_map.mpr hkeys
  simp only [canonicalize]
  rw [sortByKey_perm_eq hp' hn']

/-- C5: `fingerprint(a) = fingerprint(b)` iff `a` and `b` are the same Intent
under canonical equality — method strings match and parameter trees are
structurally equal after canonicalization — where key order within an object
does not matter (permutation invariance over distinct keys), array order
does matter (arrays canonicalize element-wise in order, and reordering a
concrete array changes the canonical form), and distinct numeric
representations such as `1` and `1.0` canonicalize identically. -/
theorem c5_fingerprint_canonical_equality :
    (∀ a b : Intent, fingerprint a = fingerprint b ↔
      a.method = b.method ∧ canonicalize a.params = canonicalize b.params) ∧
    (∀ l₁ l₂ : List (String × Json), l₁.Perm l₂ → (l₁.map Prod.fst).Nodup →
      canonicalize (.obj l₁) = canonicalize (.obj l₂)) ∧
    (∀ items : List Json, canonicalize (.arr items) = .arr (items.map canonicalize)) ∧
    canonicalize (.arr [.num 1 0, .num 2 0]) ≠ canonicalize (.arr [.num 2 0, .num 1 0]) ∧
    canonicalize (.num 10 1) = canonicalize (.num 1 0) := by
  refine ⟨?_, canonicalize_obj_perm, ?_, by decide, by decide⟩
  · intro a b
    simp [fingerprint, Prod.ext_iff]
  · intro items
    simp [canonicalize, canonList_eq_map]

/-- Witness for C5: swapping the two keys of a concrete object does not
change its canonical form. -/
theorem c5_witness :
    canonicalize (.obj [("b", .num 2 0), ("a", .num 1 0)]) =
      canonicalize (.obj [("a", .num 1 0), ("b", .num 2 0)]) :=
  c5_fingerprint_canonical_equality.2.1 _ _ (by decide) (by decide)

/-! No-newline lemmas for the JSON encoder: a dumped value spans exactly one
line. -/

theorem noNL_append {a b : String} (ha : '\n' ∉ a.data) (hb : '\n' ∉ b.data) :
    '\n' ∉ (a ++ b).data := by
  rw [String.data_append]
  intro h
  rcases List.mem_append.mp h with h | h
  exacts [ha h, hb h]

theorem escapeChar_noNL (c : Char) : '\n' ∉ (escapeChar c).data := by
  unfold escapeChar
  split_ifs with h1 h2 h3 h4 h5
  · decide
  · decide
  · decide
  · decide
  · decide
  · intro hmem
    rw [List.mem_singleton] at hmem
    exact h3 hmem.symm

theorem escapeList_noNL (l : List Char) : '\n' ∉ (escapeList l).data := by
  induction l with
  | nil => decide
  | cons c rest ih =>
    simp only [escapeList]
    exact noNL_append (escapeChar_noNL c) ih

theorem digitChar_ne_nl (n : Nat) : digitChar n ≠ '\n' := by
  unfold digitChar
  split <;> decide

theorem digitsOfAux_noNL (fuel : Nat) : ∀ n acc, '\n' ∉ acc → '\n' ∉ digitsOfAux fuel n acc := by
  induction fuel with
  | zero =>
    intro n acc hacc hmem
    rcases List.mem_cons.mp hmem with h | h
    · exact digitChar_ne_nl n h.symm
    · exact hacc h
  | succ fuel ih =>
    intro n acc hacc
    rw [digitsOfAux]
    split
    · intro hmem
      rcases List.mem_cons.mp hmem with h | h
      · exact digitChar_ne_nl n h.symm
      · exact hacc h
    · refine ih (n / 10) _ ?_
      intro hmem
      rcases List.mem_cons.mp hmem with h | h
      · exact digitChar_ne_nl (n % 10) h.symm
      · exact hacc h

theorem digitsOf_noNL (n : Nat) : '\n' ∉ digitsOf n :=
  digitsOfAux_noNL n n [] (by decide)

theorem intToStr_noNL (m : Int) : '\n' ∉ (intToStr m).data := by
  unfold intToStr
  split
  · intro hmem
    rw [String.data_append] at hmem
    rcases List.mem_append.mp hmem with h | h
    · exact absurd h (by decide)
    · exact digitsOf_noNL _ h
  · exact digitsOf_noNL _

theorem dumpNum_noNL (m : Int) (f : Nat) : '\n' ∉ (dumpNum m f).data := by
  unfold dumpNum
  split
  · exact intToStr_noNL m
  · set ds₀ := digitsOf m.natAbs with hds₀
    set ds := if ds₀.length < f + 1
      then List.replicate (f + 1 - ds₀.length) '0' ++ ds₀ else ds₀ with hds
    have hds_noNL : '\n' ∉ ds := by
      rw [hds]
      split
      · intro hmem
        rcases List.mem_append.mp hmem with h | h
        · have := List.eq_of_mem_replicate h
          exact absurd this (by decide)
        · exact digitsOf_noNL _ h
      · exact digitsOf_noNL _
    have hbody : '\n' ∉ ds.take (ds.length - f) ++ '.' :: ds.drop (ds.length - f) := by
      intro hmem
      rcases List.mem_append.mp hmem with h | h
      · exact hds_noNL (List.take_subset _ _ h)
      · rcases List.mem_cons.mp h with h | h
        · exact absurd h (by decide)
        · exact hds_noNL (List.drop_subset _ _ h)
    split
    · intro hmem
      rcases List.mem_cons.mp hmem with h | h
      · exact absurd h (by decide)
      · exact hbody h
    · exact hbody

mutual

theorem dumps_noNL : (v : Json) → '\n' ∉ (Json.dumps v).data
  | .null => by decide
  | .bool true => by decide
  | .bool false => by decide
  | .num m f => by
    simp only [Json.dumps]
    exact dumpNum_noNL m f
  | .str s => by
    simp only [Json.dumps]
    exact noNL_append (noNL_append (by decide) (escapeList_noNL s.data)) (by decide)
  | .arr items => by
    simp only [Json.dumps]
    exact noNL_append (noNL_append (by decide) (dumpsList_noNL items)) (by decide)
  | .obj es => by
    simp only [Json.dumps]
    exact noNL_append (noNL_append (by decide) (dumpsKVs_noNL es)) (by decide)

theorem dumpsList_noNL : (l : List Json) → '\n' ∉ (dumpsList l).data
  | [] => by decide
  | [x] => by
    simp only [dumpsList]
    exact dumps_noNL x
  | x :: y :: rest => by
    simp only [dumpsList]
    exact noNL_append (noNL_append (dumps_noNL x) (by decide)) (dumpsList_noNL (y :: rest))

theorem dumpsKVs_noNL : (l : List (String × Json)) → '\n' ∉ (dumpsKVs l).data
  | [] => by decide
  | [(k, v)] => by
    simp only [dumpsKVs]
    exact noNL_append
      (noNL_append (noNL_append (by decide) (escapeList_noNL k.data)) (by decide))
      (dumps_noNL v)
  | (k, v) :: e :: rest => by
    simp only [dumpsKVs]
    exact noNL_append
      (noNL_append
        (noNL_append
          (noNL_append (noNL_append (by decide) (escapeList_noNL k.data)) (by decide))
          (dumps_noNL v))
        (by decide))
      (dumpsKVs_noNL (e :: rest))

end

/-- A JSON-RPC response as the desktopctl session would produce it for the
second use of the token. -/
def demoRpc : Json :=
  .obj [("id", .str "use-2"),
    ("error", .obj [("code", .str "DESKTOP_CONFIRM_REQUIRED")])]

/-- The session envelope wrapping `demoRpc`: the JSON value actually carried
on the response line, with the RPC response JSON-encoded inside its
`stdout` string field. -/
def demoEnvelope : Json :=
  .obj [("exitCode", .num 0 0), ("stdout", .str (Json.dumps demoRpc))]

/-- The raw response line carrying `demoEnvelope`. -/
def demoSessionLine : String :=
  Json.dumps demoEnvelope

/-- Counterexample for C8 as stated: on a concrete response line the JSON
value on the line is the session envelope, while the RPC response returned
by `send_request` is the distinct value parsed out of the envelope's
`stdout` string field — so the RPC response is not the JSON value on the
line. -/
theorem c8_counterexample :
    Json.loads demoSessionLine = some demoEnvelope ∧
    send_request (demoSessionLine ++ "\n") = some demoRpc ∧
    demoRpc ≠ demoEnvelope := by
  refine ⟨rfl, rfl, by decide⟩

/-- C8 (amended): every request and every response exchanged over the
session's transport is one line-delimited JSON object — the encoded request
contains exactly one newline, the terminator, so exactly one JSON value per
line — but the RPC response is not the JSON value on the response line: it
is the JSON value decoded from the `stdout` string field of the session
envelope that is the line's value. -/
theorem c8_line_delimited_transport (req : Json) :
    (writeRequest req).data.count '\n' = 1 ∧
    (∀ stream sess out rpc, readLine stream ≠ "" →
      Json.loads (readLine stream) = some sess →
      getIndex sess "stdout" = some (.str out) →
      Json.loads out = some rpc →
      send_request stream = some rpc) := by
  constructor
  · unfold writeRequest
    rw [String.data_append, List.count_append]
    have h0 : (Json.dumps req).data.count '\n' = 0 := List.count_eq_zero.mpr (dumps_noNL req)
    rw [h0]
    decide
  · intro stream sess out rpc hne hsess hstd hrpc
    unfold send_request
    simp [hne, hsess, hstd, hrpc]

/-- Witness for C8 (amended): on the concrete demo line, `send_request`
returns the RPC response decoded from the envelope's `stdout` field. -/
theorem c8_witness :
    send_request (demoSessionLine ++ "\n") = some demoRpc :=
  (c8_line_delimited_transport (issue_request "/ws")).2 (demoSessionLine ++ "\n")
    demoEnvelope (Json.dumps demoRpc) demoRpc (by decide) rfl rfl rfl

/-! Control-flow lemmas for the test script's `main`. -/

/-- When the issue response yields a non-empty string token, `main` proceeds
to the first use step. -/
theorem main_reaches_step2 (workspace tok : String) (issueResp : Json)
    (rest1 : List Json) (r? : Option Json)
    (h1 : dictGet issueResp "result" = some r?)
    (h2 : dictGet (r?.getD (.obj [])) "token" = some (some (.str tok)))
    (h3 : tok ≠ "") :
    main workspace true (issueResp :: rest1) =
      mainStep2 workspace tok [issue_request workspace]
        ((["=== Token Reuse 测试（Session 模式）===", "Workspace: " ++ workspace ++ "\n"] ++
          ["[1] 启动 desktopctl session...", "[2] 签发 token..."]) ++
          ["✓ Token 已签发: " ++ take8 tok ++ "...\n"]) rest1 := by
  unfold main
  rw [if_neg (by simp)]
  dsimp only
  rw [h1]
  dsimp only
  rw [h2]
  dsimp only
  have htr : truthyOpt (some (.str tok)) = true := by
    simp [truthyOpt, Json.truthy, h3]
  rw [htr, if_neg (by simp)]

/-- When the first use response lets the script fall through (no error, or an
error whose code is neither permission-missing nor confirm-related), `main`'s
step 2 continues into step 3 with the use-1 request recorded as sent. -/
theorem mainStep2_proceeds (workspace tok : String) (sent1 : List Json)
    (out : List String) (use1Resp : Json) (rest2 : List Json)
    (h : pyContains "error" use1Resp = some false ∨
      ∃ es1 c, pyContains "error" use1Resp = some true ∧
        getIndex use1Resp "error" = some (.obj es1) ∧
        lookupEntry es1 "code" = some (.str c) ∧
        c ≠ "DESKTOP_PERMISSION_MISSING" ∧ hasSub "CONFIRM" c = false ∧
        c ≠ "INVALID_TOKEN" ∧ c ≠ "TOKEN_EXPIRED") :
    ∃ out', mainStep2 workspace tok sent1 out (use1Resp :: rest2) =
      mainStep3 workspace tok (sent1 ++ [use_request "use-1" workspace tok]) out' rest2 := by
  rcases h with h | ⟨es1, c, hp, hg, hc, hne, hsub, hne1, hne2⟩
  · refine ⟨(out ++ ["[3] 第一次使用 token（会消费）..."]) ++ ["✓ Token 已消费（操作成功）\n"], ?_⟩
    unfold mainStep2
    dsimp only
    rw [h]
  · refine ⟨(out ++ ["[3] 第一次使用 token（会消费）..."]) ++
      ["✓ Token 已消费（操作失败: " ++ c ++ "）\n"], ?_⟩
    unfold mainStep2
    try dsimp only
    rw [hp]
    try dsimp only
    rw [hg]
    try dsimp only
    simp only [dictGet, Json.asObj, Option.map]
    rw [hc]
    try dsimp only
    rw [if_neg (by simp [hne])]
    try dsimp only
    rw [hsub]
    rw [if_neg (by simp [hne1, hne2])]

/-- A second-use response with error code `DESKTOP_CONFIRM_REQUIRED` makes
step 3 succeed with exit code 0 for every reason value, emitting a warning
line when the reason is not `used`. -/
theorem mainStep3_confirm_required (workspace tok : String) (sent2 : List Json)
    (out : List String) (use2Resp : Json) (rest' : List Json)
    (es2 ds : List (String × Json)) (reason? : Option Json)
    (h1 : pyContains "error" use2Resp = some true)
    (h2 : getIndex use2Resp "error" = some (.obj es2))
    (h3 : lookupEntry es2 "code" = some (.str "DESKTOP_CONFIRM_REQUIRED"))
    (h4 : (lookupEntry es2 "details").getD (.obj []) = .obj ds)
    (h5 : lookupEntry ds "reason" = reason?) :
    ∃ outF, mainStep3 workspace tok sent2 out (use2Resp :: rest') =
      some ⟨0, sent2 ++ [use_request "use-2" workspace tok], outF⟩ ∧
      (reason? ≠ some (.str "used") → warnReasonLine reason? ∈ outF) := by
  unfold mainStep3
  dsimp only
  rw [h1]
  dsimp only
  rw [h2]
  dsimp only
  simp only [dictGet, Json.asObj, Option.map]
  rw [h3, h4]
  try dsimp only
  simp only [dictGet, Json.asObj, Option.map]
  rw [h5]
  try dsimp only
  rw [if_pos trivial]
  by_cases hr : reason? = some (.str "used")
  · rw [if_pos hr]
    exact ⟨_, rfl, fun hne => absurd hr hne⟩
  · rw [if_neg hr]
    refine ⟨_, rfl, fun _ => ?_⟩
    simp

/-- C9: in every run of the test script in which the second presentation of
the token yields an error with code `DESKTOP_CONFIRM_REQUIRED` (having got
past issuance and first use), `main` returns exit code 0 regardless of the
value of `details.reason`: a reason other than `used` produces only a
warning line on stdout, never a failing exit code, so the `reason="used"`
requirement of the single-use property is not enforced by the script's exit
status. -/
theorem c9_exit_zero_regardless_of_reason (workspace tok : String)
    (issueResp use1Resp use2Resp : Json) (rest : List Json) (r? : Option Json)
    (es2 ds : List (String × Json)) (reason? : Option Json)
    (h1 : dictGet issueResp "result" = some r?)
    (h2 : dictGet (r?.getD (.obj [])) "token" = some (some (.str tok)))
    (h3 : tok ≠ "")
    (hu1 : pyContains "error" use1Resp = some false ∨
      ∃ es1 c, pyContains "error" use1Resp = some true ∧
        getIndex use1Resp "error" = some (.obj es1) ∧
        lookupEntry es1 "code" = some (.str c) ∧
        c ≠ "DESKTOP_PERMISSION_MISSING" ∧ hasSub "CONFIRM" c = false ∧
        c ≠ "INVALID_TOKEN" ∧ c ≠ "TOKEN_EXPIRED")
    (hu2a : pyContains "error" use2Resp = some true)
    (hu2b : getIndex use2Resp "error" = some (.obj es2))
    (hu2c : lookupEntry es2 "code" = some (.str "DESKTOP_CONFIRM_REQUIRED"))
    (hu2d : (lookupEntry es2 "details").getD (.obj []) = .obj ds)
    (hu2e : lookupEntry ds "reason" = reason?) :
    ∃ res, main workspace true (issueResp :: use1Resp :: use2Resp :: rest) = some res ∧
      res.exitCode = 0 ∧ res.sent.length = 3 ∧
      (reason? ≠ some (.str "used") → warnReasonLine reason? ∈ res.output) := by
  rw [main_reaches_step2 workspace tok issueResp _ r? h1 h2 h3]
  obtain ⟨out', hstep2⟩ := mainStep2_proceeds workspace tok _ _ use1Resp _ hu1
  rw [hstep2]
  obtain ⟨outF, hstep3, hwarn⟩ := mainStep3_confirm_required workspace tok _ out' use2Resp
    rest es2 ds reason? hu2a hu2b hu2c hu2d hu2e
  rw [hstep3]
  exact ⟨_, rfl, rfl, by simp, hwarn⟩

/-- The issue response delivered in the demonstration runs. -/
def demoIssueResp : Json :=
  .obj [("id", .str "issue-1"), ("result", .obj [("token", .str "tokenabcdef")])]

/-- A first-use response whose action failed for a non-confirm reason. -/
def demoUse1Resp : Json :=
  .obj [("id", .str "use-1"), ("error", .obj [("code", .str "ELEMENT_NOT_FOUND")])]

/-- A second-use denial whose reason is `mismatch` rather than `used`. -/
def demoUse2RespMismatch : Json :=
  .obj [("id", .str "use-2"),
    ("error", .obj [("code", .str "DESKTOP_CONFIRM_REQUIRED"),
      ("details", .obj [("reason", .str "mismatch")])])]

/-- Witness for C9: a concrete run whose second denial has reason
`mismatch` still exits 0, with the warning line printed. -/
theorem c9_witness :
    ∃ res, main "/ws" true [demoIssueResp, demoUse1Resp, demoUse2RespMismatch] = some res ∧
      res.exitCode = 0 ∧ res.sent.length = 3 ∧
      (some (Json.str "mismatch") ≠ some (Json.str "used") →
        warnReasonLine (some (.str "mismatch")) ∈ res.output) :=
  c9_exit_zero_regardless_of_reason "/ws" "tokenabcdef" demoIssueResp demoUse1Resp
    demoUse2RespMismatch [] (some (.obj [("token", .str "tokenabcdef")]))
    [("code", .str "DESKTOP_CONFIRM_REQUIRED"), ("details", .obj [("reason", .str "mismatch")])]
    [("reason", .str "mismatch")] (some (.str "mismatch"))
    rfl rfl (by decide)
    (Or.inr ⟨[("code", .str "ELEMENT_NOT_FOUND")], "ELEMENT_NOT_FOUND",
      rfl, rfl, rfl, by decide, rfl, by decide, by decide⟩)
    rfl rfl rfl rfl rfl

/-- C10: in every run of the test script in which the first use of the token
returns error code `DESKTOP_PERMISSION_MISSING` (after a successful
issuance), `main` returns exit code 0 having sent only the issue and first
use requests — the reuse request is never sent, so the reuse-denial property
is reported as passing while never having been exercised. -/
theorem c10_permission_missing_skips (workspace tok : String)
    (issueResp use1Resp : Json) (rest : List Json) (r? : Option Json)
    (es1 : List (String × Json))
    (h1 : dictGet issueResp "result" = some r?)
    (h2 : dictGet (r?.getD (.obj [])) "token" = some (some (.str tok)))
    (h3 : tok ≠ "")
    (p1 : pyContains "error" use1Resp = some true)
    (p2 : getIndex use1Resp "error" = some (.obj es1))
    (p3 : lookupEntry es1 "code" = some (.str "DESKTOP_PERMISSION_MISSING")) :
    ∃ res, main workspace true (issueResp :: use1Resp :: rest) = some res ∧
      res.exitCode = 0 ∧
      res.sent = [issue_request workspace, use_request "use-1" workspace tok] := by
  rw [main_reaches_step2 workspace tok issueResp _ r? h1 h2 h3]
  unfold mainStep2
  dsimp only
  rw [p1]
  dsimp only
  rw [p2]
  dsimp only
  simp only [dictGet, Json.asObj, Option.map]
  rw [p3]
  rw [if_pos rfl]
  exact ⟨_, rfl, rfl, by simp⟩

/-- A first-use response reporting the missing accessibility permission. -/
def demoPermResp : Json :=
  .obj [("id", .str "use-1"), ("error", .obj [("code", .str "DESKTOP_PERMISSION_MISSING")])]

/-- Witness for C10: the concrete permission-missing run exits 0 after only
two requests. -/
theorem c10_witness :
    ∃ res, main "/ws" true [demoIssueResp, demoPermResp] = some res ∧
      res.exitCode = 0 ∧
      res.sent = [issue_request "/ws", use_request "use-1" "/ws" "tokenabcdef"] :=
  c10_permission_missing_skips "/ws" "tokenabcdef" demoIssueResp demoPermResp []
    (some (.obj [("token", .str "tokenabcdef")]))
    [("code", .str "DESKTOP_PERMISSION_MISSING")]
    rfl rfl (by decide) rfl rfl rfl

end Msgcode
